import Mathlib

/-!
Verification of the AIImageClassifierRNW native-host fragment.

The fragment holds two files:
  * windows/AIImageClassifierRNW/ReactPackageProvider.cpp — the package
    provider whose single method CreatePackage forwards to the framework
    routine AddAttributedModules;
  * windows/AIImageClassifierRNW/MainPage.h — the page-container type
    deriving from the framework template base MainPageT, adding no data
    members and declaring a default constructor.

The embedding models the builder capability as a registry of module names,
the framework call as an explicit trace event, and the provider type as a
field-free structure.  The framework routine AddAttributedModules and the
body of MainPage's constructor live outside the fragment, so they are
modelled from the specification's documented contracts.
-/

namespace AIImageClassifierRNW

/-- A native module present in the binary: its name and whether it carries
the attribute-based discovery annotation. -/
structure NativeModule where
  name : String
  attributed : Bool
deriving Repr, DecidableEq

/-- The package-builder capability handle (IReactPackageBuilder): an
identity for the handle and the module registry it accumulates. -/
structure IReactPackageBuilder where
  id : Nat
  registry : List String
deriving Repr, DecidableEq

/-- Modelled from the spec: AddAttributedModules (NativeModules.h) is
framework code absent from this repository.  Per the spec it performs
attribute-driven discovery: the builder's registry gains an entry for every
native module in the binary that opted into attribute-based discovery, and
the routine signals no failure to its caller.  The boolean is the
framework's two-argument discovery-mode flag; the framework interprets it
internally, so the model records it without branching on it. -/
def AddAttributedModules (binary : List NativeModule)
    (packageBuilder : IReactPackageBuilder) (_flag : Bool) :
    IReactPackageBuilder :=
  { packageBuilder with
    registry := packageBuilder.registry ++
      (binary.filter (fun m => m.attributed)).map (fun m => m.name) }

/-- Modelled from the spec: ReactPackageProvider.h is not part of the
fragment; per the spec the provider is stateless, and
ReactPackageProvider.cpp reads or writes no member of it, so the type
declares no fields. -/
structure ReactPackageProvider where
deriving Repr

instance : DecidableEq ReactPackageProvider := fun _ _ => isTrue rfl

/-- One call the provider makes into the framework, with the arguments it
passes. -/
inductive FrameworkCall where
  | addAttributedModules (packageBuilder : IReactPackageBuilder) (flag : Bool)
deriving Repr, DecidableEq

/-- The boolean argument carried by a framework call. -/
def FrameworkCall.flag : FrameworkCall → Bool
  | .addAttributedModules _ f => f

/-- Shallow embedding of ReactPackageProvider::CreatePackage
(ReactPackageProvider.cpp, lines 10–13).  The body is the single statement
AddAttributedModules(packageBuilder, true).  The embedding threads the
provider value, and returns the provider after the call, the builder after
the framework routine ran, and the trace of framework calls the body made,
in order. -/
def CreatePackage (binary : List NativeModule) (self : ReactPackageProvider)
    (packageBuilder : IReactPackageBuilder) :
    ReactPackageProvider × IReactPackageBuilder × List FrameworkCall :=
  (self, AddAttributedModules binary packageBuilder true,
    [FrameworkCall.addAttributedModules packageBuilder true])

/-- The caller-visible outcome channel of CreatePackage.  The C++ method is
declared noexcept and returns void: no exception and no error code can
reach the caller, so the embedded return path always carries the result. -/
def CreatePackageOutcome (binary : List NativeModule)
    (self : ReactPackageProvider) (packageBuilder : IReactPackageBuilder) :
    Except String (ReactPackageProvider × IReactPackageBuilder × List FrameworkCall) :=
  .ok (CreatePackage binary self packageBuilder)

/-- The framework-provided template base MainPageT: its state is owned by
the framework and opaque to the fragment, modelled as an abstract value. -/
structure MainPageT where
  frameworkState : Nat
deriving Repr, DecidableEq

/-- Shallow embedding of struct MainPage (MainPage.h, lines 7–10): it
derives from MainPageT and declares no data member of its own, so its only
field is the base subobject. -/
structure MainPage where
  base : MainPageT
deriving Repr, DecidableEq

/-- The framework's default base-subobject value. -/
def MainPageT.start : MainPageT := { frameworkState := 0 }

/-- Modelled from the spec: the body of MainPage's declared default
constructor (MainPage.cpp) is not part of the fragment; per the spec a
default construction exists, builds the framework template base, and must
not throw or fail, so the outcome channel always carries a page. -/
def MainPage.construct : Except String MainPage :=
  .ok { base := MainPageT.start }

/-- One application run per the spec's control flow: the framework
constructs the page, and separately invokes the provider's registration
entry point with a builder capability.  The two components exchange no
data. -/
def appRun (binary : List NativeModule) (self : ReactPackageProvider)
    (packageBuilder : IReactPackageBuilder) :
    Except String MainPage ×
      (ReactPackageProvider × IReactPackageBuilder × List FrameworkCall) :=
  (MainPage.construct, CreatePackage binary self packageBuilder)

/-- C1: for every builder capability, CreatePackage completes and returns
normally — the outcome channel carries a result, never an exception or
error code — for every binary, including one with zero attributed native
modules. -/
theorem createPackage_never_signals_failure
    (binary : List NativeModule) (self : ReactPackageProvider)
    (packageBuilder : IReactPackageBuilder) :
    (∃ r, CreatePackageOutcome binary self packageBuilder = Except.ok r) ∧
      (∃ r, CreatePackageOutcome [] self packageBuilder = Except.ok r) := by
  exact ⟨⟨_, rfl⟩, ⟨_, rfl⟩⟩

/-- C2: CreatePackage's entire behaviour is the single delegation
AddAttributedModules(packageBuilder, true): the trace holds exactly that
one call, the resulting builder is exactly what the framework routine
produces, the registry gains an entry for every attributed module in the
binary, and the operation produces no further value. -/
theorem createPackage_is_single_delegation
    (binary : List NativeModule) (self : ReactPackageProvider)
    (packageBuilder : IReactPackageBuilder) :
    CreatePackage binary self packageBuilder =
      (self, AddAttributedModules binary packageBuilder true,
        [FrameworkCall.addAttributedModules packageBuilder true]) ∧
      ∀ m, m ∈ binary → m.attributed = true →
        m.name ∈ (AddAttributedModules binary packageBuilder true).registry := by
  refine ⟨rfl, ?_⟩
  intro m hm hattr
  simp only [AddAttributedModules, List.mem_append, List.mem_map]
  right
  exact ⟨m, List.mem_filter.mpr ⟨hm, by simp [hattr]⟩, rfl⟩

/-- Closed instance of C2 at a concrete binary and builder. -/
theorem createPackage_is_single_delegation_witness :
    (CreatePackage [⟨"img", true⟩] ⟨⟩ ⟨0, []⟩ =
      (⟨⟩, AddAttributedModules [⟨"img", true⟩] ⟨0, []⟩ true,
        [FrameworkCall.addAttributedModules ⟨0, []⟩ true])) ∧
      "img" ∈ (AddAttributedModules [⟨"img", true⟩] ⟨0, []⟩ true).registry := by
  have h := createPackage_is_single_delegation [⟨"img", true⟩] ⟨⟩ ⟨0, []⟩
  exact ⟨h.1, h.2 ⟨"img", true⟩ (by simp) rfl⟩

/-- C3: the provider is stateless.  The provider type admits exactly one
value, so no provider-internal state is mutated by either of two
successive invocations with distinct builders, and each invocation makes
at most one framework call. -/
theorem provider_stateless_two_calls
    (binary : List NativeModule) (self : ReactPackageProvider)
    (b1 b2 : IReactPackageBuilder) (hne : b1 ≠ b2) :
    (∀ p q : ReactPackageProvider, p = q) ∧
      (CreatePackage binary self b1).1 = self ∧
      (CreatePackage binary (CreatePackage binary self b1).1 b2).1 = self ∧
      (CreatePackage binary self b1).2.2.length ≤ 1 ∧
      (CreatePackage binary (CreatePackage binary self b1).1 b2).2.2.length ≤ 1 := by
  exact ⟨fun p q => rfl, rfl, rfl, le_refl 1, le_refl 1⟩

/-- Closed instance of C3 at two concrete distinct builders. -/
theorem provider_stateless_two_calls_witness :
    ((⟨0, []⟩ : IReactPackageBuilder) ≠ ⟨1, []⟩) ∧
      (CreatePackage [] ⟨⟩ ⟨0, []⟩).1 = ⟨⟩ := by
  have h := provider_stateless_two_calls [] ⟨⟩ ⟨0, []⟩ ⟨1, []⟩ (by decide)
  exact ⟨by decide, h.2.1⟩

/-- C4: a default construction of the page container exists and never
throws or fails: the outcome channel always carries a page. -/
theorem mainPage_default_construction_succeeds :
    ∃ p, MainPage.construct = Except.ok p := by
  exact ⟨_, rfl⟩

/-- C5: two runs that differ only in the builder capability passed to
CreatePackage produce identical page-container behaviour: the page
component of the run never depends on the builder. -/
theorem page_independent_of_builder
    (binary : List NativeModule) (self : ReactPackageProvider)
    (b1 b2 : IReactPackageBuilder) :
    (appRun binary self b1).1 = (appRun binary self b2).1 := by
  rfl

/-- C6: the builder is used only transiently: the provider value returned
by CreatePackage equals the one passed in and is the same whatever builder
was supplied, and the field-free provider type cannot retain a builder. -/
theorem provider_retains_no_builder
    (binary : List NativeModule) (self : ReactPackageProvider)
    (b : IReactPackageBuilder) :
    (CreatePackage binary self b).1 = self ∧
      ∀ b2, (CreatePackage binary self b).1 = (CreatePackage binary self b2).1 := by
  exact ⟨rfl, fun b2 => rfl⟩

/-- C7: MainPage holds no state beyond the framework template base: two
pages with equal base subobjects are equal, so every operation preserves
the invariant trivially. -/
theorem mainPage_no_extra_state (p q : MainPage) (h : p.base = q.base) :
    p = q := by
  cases p
  cases q
  cases h
  rfl

/-- Closed instance of C7 at two concrete pages with equal bases. -/
theorem mainPage_no_extra_state_witness :
    ({ base := ⟨5⟩ } : MainPage) = { base := ⟨5⟩ } := by
  exact mainPage_no_extra_state { base := ⟨5⟩ } { base := ⟨5⟩ } rfl

/-- C8: on every invocation, the trace is the one framework call whose
boolean argument is the constant true, independent of the builder, the
binary and the provider. -/
theorem createPackage_flag_constant_true
    (binary : List NativeModule) (self : ReactPackageProvider)
    (packageBuilder : IReactPackageBuilder) :
    (CreatePackage binary self packageBuilder).2.2 =
      [FrameworkCall.addAttributedModules packageBuilder true] ∧
      ∀ c, c ∈ (CreatePackage binary self packageBuilder).2.2 →
        c.flag = true := by
  refine ⟨rfl, ?_⟩
  intro c hc
  simp only [CreatePackage, List.mem_singleton] at hc
  subst hc
  rfl

/-- Closed instance of C8 at a concrete invocation. -/
theorem createPackage_flag_constant_true_witness :
    (CreatePackage [] ⟨⟩ ⟨3, []⟩).2.2 =
      [FrameworkCall.addAttributedModules ⟨3, []⟩ true] ∧
      (FrameworkCall.addAttributedModules ⟨3, []⟩ true).flag = true := by
  have h := createPackage_flag_constant_true [] ⟨⟩ ⟨3, []⟩
  exact ⟨h.1, h.2 _ (by simp [h.1])⟩

/-- C9: CreatePackage is deterministic and reads no hidden provider input:
its effect on the builder and its framework-call trace depend only on the
builder argument and the binary, never on the provider value. -/
theorem createPackage_deterministic
    (binary : List NativeModule) (self1 self2 : ReactPackageProvider)
    (packageBuilder : IReactPackageBuilder) :
    (CreatePackage binary self1 packageBuilder).2 =
      (CreatePackage binary self2 packageBuilder).2 := by
  rfl

end AIImageClassifierRNW
